import Mathlib

/-!
Shallow embedding of the QuizMaster quiz-session engine (src/App.tsx).

The React component's `useState` hooks are gathered into one `SessionState`
record; each event handler (`handleSubmitQuiz`, `handleNextQuestion`,
`handleOptionClick`, `loadActiveQuiz`, the backend-event subscription and the
two timer `useEffect` callbacks) becomes a pure state-transition function.
The external store write `MockBackend.submitQuiz` is modelled by appending to
a `submissionsSent` list, and `Date.now()` is passed in as an explicit `now`
parameter.  JavaScript numbers that the code only ever uses as nonnegative
counters are `Nat`; wall-clock timestamps are `Int` and
`Math.floor(x / 1000)` on timestamp differences is `Int` division (Euclidean,
i.e. floor for the positive literal divisor used here).
-/

namespace QuizApp

/-- `UserRole` from types.ts: the two login roles. -/
inductive UserRole where
  | STUDENT
  | ADMIN
  deriving DecidableEq, Repr

/-- A logged-in user (`User` in types.ts; only the fields App.tsx reads). -/
structure User where
  id : String
  name : String
  role : UserRole
  deriving DecidableEq, Repr

/-- One answer option of a question (`Question.options` element). -/
structure QOption where
  id : String
  text : String
  deriving DecidableEq, Repr

/-- A quiz question (`Question` in types.ts; fields read by App.tsx). -/
structure Question where
  id : String
  text : String
  options : List QOption
  correctAnswer : String
  deriving DecidableEq, Repr

/-- A quiz (`Quiz` in types.ts; fields read by App.tsx).  `publishedAt = none`
models an absent/falsy publish timestamp. -/
structure Quiz where
  id : String
  title : String
  durationMinutes : Nat
  publishedAt : Option Int
  deriving DecidableEq, Repr

/-- The transient feedback object stored by `setFeedback` in
`handleOptionClick` (App.tsx line 239). -/
structure Feedback where
  selectedId : String
  isCorrect : Bool
  deriving DecidableEq, Repr

/-- One `questionId`/`value` pair of a submission (`Submission.answers`
element, built in `handleSubmitQuiz` from `Object.entries(answers)`). -/
structure AnsweredPair where
  questionId : String
  value : String
  deriving DecidableEq, Repr

/-- A submission record (`Submission` in types.ts, as built by
`handleSubmitQuiz`). -/
structure Submission where
  quizId : String
  studentId : String
  answers : List AnsweredPair
  score : Nat
  totalQuestions : Nat
  submittedAt : Int
  deriving DecidableEq, Repr

/-- The `view` state variable of App.tsx (line 37). -/
inductive View where
  | LOGIN_SELECT
  | STUDENT_LOGIN
  | STUDENT_REGISTER
  | REGISTRATION_SUCCESS
  | ADMIN_LOGIN
  | STUDENT_LOBBY
  | ADMIN_DASHBOARD
  deriving DecidableEq, Repr

/-- The per-participant session state: the `useState` hooks of App.tsx that
the quiz-session engine reads and writes, plus `submissionsSent`, the list of
records handed to `MockBackend.submitQuiz` (the external store). -/
structure SessionState where
  view : View
  user : Option User
  activeQuiz : Option Quiz
  questions : List Question
  currentQIndex : Nat
  answers : List (String × String)
  globalTimeLeft : Nat
  questionTimeLeft : Nat
  feedback : Option Feedback
  submitted : Bool
  result : Option Nat
  onlineCount : Nat
  submissionsSent : List Submission
  deriving DecidableEq, Repr

/-- JavaScript object-spread update on the `answers` record
(`setAnswers(prev => (...prev, [questionId]: optionId))`, App.tsx line 236):
an existing key is updated in place, a new key is appended. -/
def recordSet (m : List (String × String)) (k v : String) : List (String × String) :=
  if m.any (fun p => decide (p.1 = k)) then
    m.map (fun p => if p.1 = k then (k, v) else p)
  else
    m ++ [(k, v)]

/-- Read a key from the JavaScript-object model of `answers`. -/
def lookupRecord (m : List (String × String)) (k : String) : Option String :=
  (m.find? (fun p => decide (p.1 = k))).map (fun p => p.2)

/-- Find the answer recorded for a question identifier, if any. -/
def findAnswer (answers : List AnsweredPair) (qid : String) : Option AnsweredPair :=
  answers.find? (fun a => decide (a.questionId = qid))

/-- Modelled from the spec: `MockBackend.calculateScore`
(src/services/mockBackend.ts is not part of the provided source tree; only its
call site in `handleSubmitQuiz`, App.tsx line 273, is).  Spec section 4.1: for
each question in `questions`, look up an answer by question identifier; if
present and its chosen option identifier equals the question's correct option
identifier, increment the score. -/
def calculateScore (questions : List Question) (answers : List AnsweredPair) : Nat :=
  questions.countP (fun q =>
    match findAnswer answers q.id with
    | some a => decide (a.value = q.correctAnswer)
    | none => false)

/-- `handleSubmitQuiz` (App.tsx lines 260-278): guarded by `user`,
`activeQuiz` and the `submitted` flag; sets `submitted`, computes the score,
stores the result and hands exactly one `Submission` to the store. -/
def handleSubmitQuiz (s : SessionState) (now : Int) : SessionState :=
  match s.user, s.activeQuiz with
  | some u, some quiz =>
    if s.submitted then s
    else
      let ans := s.answers.map (fun kv => AnsweredPair.mk kv.1 kv.2)
      let score := calculateScore s.questions ans
      { s with
          submitted := true
          result := some score
          submissionsSent := s.submissionsSent ++
            [{ quizId := quiz.id
               studentId := u.id
               answers := ans
               score := score
               totalQuestions := s.questions.length
               submittedAt := now }] }
  | _, _ => s

/-- `handleNextQuestion` (App.tsx lines 247-257): clears feedback, resets the
question timer to 60, then either increments the index or, past the last
question, calls the submit function through the ref. -/
def handleNextQuestion (s : SessionState) (now : Int) : SessionState :=
  let s1 := { s with feedback := none, questionTimeLeft := 60 }
  if s1.currentQIndex < s1.questions.length - 1 then
    { s1 with currentQIndex := s1.currentQIndex + 1 }
  else
    handleSubmitQuiz s1 now

/-- `handleOptionClick` (App.tsx lines 229-245): a no-op (early return) when
feedback is already set; otherwise reads `questions[currentQIndex]` (a
TypeError — modelled as `none` — when the index is out of range), records the
answer under the *given* `questionId`, and stores feedback whose correctness
is the string equality of `optionId` with the current question's
`correctAnswer`.  The `submitted` flag is not consulted. -/
def handleOptionClick (s : SessionState) (questionId optionId : String) :
    Option SessionState :=
  if s.feedback.isSome then some s
  else
    match s.questions[s.currentQIndex]? with
    | none => none
    | some currentQ =>
      some { s with
        answers := recordSet s.answers questionId optionId
        feedback := some { selectedId := optionId
                           isCorrect := decide (optionId = currentQ.correctAnswer) } }

/-- `loadActiveQuiz` (App.tsx lines 134-158): fetches the active quiz and the
question bank (passed here as `quizOpt` and `allQs`), takes the first 10
questions, and — whenever the quiz carries a publish timestamp — resets the
whole session and recomputes the remaining global time from the hard-coded
10-minute budget (`(10 * 60) - elapsed`, line 154), clamped at 0. -/
def loadActiveQuiz (s : SessionState) (quizOpt : Option Quiz)
    (allQs : List Question) (now : Int) : SessionState :=
  match quizOpt with
  | none => s
  | some quiz =>
    let s1 := { s with activeQuiz := some quiz, questions := allQs.take 10 }
    match quiz.publishedAt with
    | none => s1
    | some pub =>
      let elapsed : Int := (now - pub) / 1000
      let remaining : Int := 10 * 60 - elapsed
      { s1 with
          currentQIndex := 0
          answers := []
          feedback := none
          submitted := false
          questionTimeLeft := 60
          globalTimeLeft := if remaining > 0 then remaining.toNat else 0 }

/-- The `user?.role === UserRole.STUDENT` test of the event subscription
(App.tsx line 81). -/
def isStudent (s : SessionState) : Bool :=
  match s.user with
  | some u => decide (u.role = UserRole.STUDENT)
  | none => false

/-- The backend events delivered by `MockBackend.subscribeToEvents`. -/
inductive BackendEvent where
  | QUIZ_PUBLISHED
  | ONLINE_COUNT_UPDATE (n : Nat)
  | SUBMISSION_RECEIVED
  deriving DecidableEq, Repr

/-- The event-subscription handler (App.tsx lines 78-96).  A
`QUIZ_PUBLISHED` event makes a student session call `loadActiveQuiz`;
`ONLINE_COUNT_UPDATE` only updates the displayed count;
`SUBMISSION_RECEIVED` only refreshes admin-side data (not modelled). -/
def handleEvent (s : SessionState) (e : BackendEvent) (quizOpt : Option Quiz)
    (allQs : List Question) (now : Int) : SessionState :=
  match e with
  | .QUIZ_PUBLISHED => if isStudent s then loadActiveQuiz s quizOpt allQs now else s
  | .ONLINE_COUNT_UPDATE n => { s with onlineCount := n }
  | .SUBMISSION_RECEIVED => s

/-- The scheduling condition of the global-timer `useEffect`
(App.tsx line 101): the interval exists only while this is true. -/
def globalTimerActive (s : SessionState) : Bool :=
  s.activeQuiz.isSome && decide (0 < s.globalTimeLeft) && !s.submitted &&
    decide (s.view = View.STUDENT_LOBBY)

/-- One firing of the global-timer interval callback (App.tsx lines 102-110):
at 1 (or below) it calls the submit ref and clamps to 0, otherwise it
decrements. -/
def globalTick (s : SessionState) (now : Int) : SessionState :=
  if s.globalTimeLeft ≤ 1 then
    { handleSubmitQuiz s now with globalTimeLeft := 0 }
  else
    { s with globalTimeLeft := s.globalTimeLeft - 1 }

/-- One scheduler step of the global timer: the interval callback fires only
while the `useEffect` condition holds, otherwise nothing is scheduled. -/
def globalStep (s : SessionState) (now : Int) : SessionState :=
  if globalTimerActive s then globalTick s now else s

/-- The scheduling condition of the question-timer `useEffect`
(App.tsx line 118): requires an active quiz, not submitted, the lobby view,
no feedback showing, and a nonempty question list. -/
def questionTimerActive (s : SessionState) : Bool :=
  s.activeQuiz.isSome && !s.submitted && decide (s.view = View.STUDENT_LOBBY) &&
    s.feedback.isNone && decide (0 < s.questions.length)

/-- One firing of the question-timer interval callback (App.tsx lines
120-128): at 1 (or below) it auto-skips via `handleNextQuestion` and resets
to 60, otherwise it decrements. -/
def questionTick (s : SessionState) (now : Int) : SessionState :=
  if s.questionTimeLeft ≤ 1 then
    { handleNextQuestion s now with questionTimeLeft := 60 }
  else
    { s with questionTimeLeft := s.questionTimeLeft - 1 }

/-- One scheduler step of the question timer: the interval callback fires
only while the `useEffect` condition holds. -/
def questionStep (s : SessionState) (now : Int) : SessionState :=
  if questionTimerActive s then questionTick s now else s

/-- The distinct screens the component can return (one per `return` branch of
App.tsx).  Only `quizQuestion` renders clickable option buttons. -/
inductive RenderedView where
  | loginSelect
  | studentRegister
  | registrationSuccess
  | studentLogin
  | adminLogin
  | adminDashboard
  | waitingForQuiz
  | quizCompleted (result : Option Nat) (total : Nat)
  | loadingQuestions
  | questionNotFound
  | quizQuestion (q : Question) (index : Nat) (total : Nat) (optionsEnabled : Bool)
  | loadingFallback
  deriving DecidableEq, Repr

/-- The render function of App.tsx (lines 288-643): the chain of view
branches, including the student-lobby guards — waiting screen when no active
quiz, completion screen when submitted, "Loading questions..." when the list
is empty (line 478), and "Error: Question not found." when
`questions[currentQIndex]` is undefined (line 490). -/
def render (s : SessionState) : RenderedView :=
  match s.view with
  | .LOGIN_SELECT => .loginSelect
  | .STUDENT_REGISTER => .studentRegister
  | .REGISTRATION_SUCCESS => .registrationSuccess
  | .STUDENT_LOGIN => .studentLogin
  | .ADMIN_LOGIN => .adminLogin
  | .ADMIN_DASHBOARD => .adminDashboard
  | .STUDENT_LOBBY =>
    match s.activeQuiz with
    | none => .waitingForQuiz
    | some _ =>
      if s.submitted then .quizCompleted s.result s.questions.length
      else if s.questions.length = 0 then .loadingQuestions
      else
        match s.questions[s.currentQIndex]? with
        | none => .questionNotFound
        | some q => .quizQuestion q s.currentQIndex s.questions.length (!s.feedback.isSome)

/-! ### Helper lemmas about the transition functions -/

/-- `handleSubmitQuiz` never touches the navigation, question, answer, timer
or feedback state: it only flips `submitted`, stores `result` and appends the
submission. -/
theorem handleSubmitQuiz_fields (s : SessionState) (now : Int) :
    (handleSubmitQuiz s now).view = s.view ∧
    (handleSubmitQuiz s now).user = s.user ∧
    (handleSubmitQuiz s now).activeQuiz = s.activeQuiz ∧
    (handleSubmitQuiz s now).questions = s.questions ∧
    (handleSubmitQuiz s now).currentQIndex = s.currentQIndex ∧
    (handleSubmitQuiz s now).answers = s.answers ∧
    (handleSubmitQuiz s now).globalTimeLeft = s.globalTimeLeft ∧
    (handleSubmitQuiz s now).questionTimeLeft = s.questionTimeLeft ∧
    (handleSubmitQuiz s now).feedback = s.feedback := by
  cases hu : s.user with
  | none => simp [handleSubmitQuiz, hu]
  | some u =>
    cases hq : s.activeQuiz with
    | none => simp [handleSubmitQuiz, hu, hq]
    | some qz =>
      cases hs : s.submitted <;> simp [handleSubmitQuiz, hu, hq, hs]

/-- An already-submitted session is left untouched by `handleSubmitQuiz`. -/
theorem handleSubmitQuiz_noop_of_submitted (s : SessionState) (now : Int)
    (h : s.submitted = true) : handleSubmitQuiz s now = s := by
  cases hu : s.user with
  | none => simp [handleSubmitQuiz, hu]
  | some u =>
    cases hq : s.activeQuiz with
    | none => simp [handleSubmitQuiz, hu, hq]
    | some qz => simp [handleSubmitQuiz, hu, hq, h]

/-- When the guards pass, `handleSubmitQuiz` marks the session submitted and
appends exactly one submission record. -/
theorem handleSubmitQuiz_submits (s : SessionState) (now : Int)
    (u : User) (qz : Quiz) (hu : s.user = some u) (hq : s.activeQuiz = some qz)
    (hs : s.submitted = false) :
    (handleSubmitQuiz s now).submitted = true ∧
    (handleSubmitQuiz s now).submissionsSent.length = s.submissionsSent.length + 1 := by
  simp [handleSubmitQuiz, hu, hq, hs]

/-- One call to `handleSubmitQuiz` sends at most one submission record. -/
theorem handleSubmitQuiz_submissions_le (s : SessionState) (now : Int) :
    (handleSubmitQuiz s now).submissionsSent.length ≤ s.submissionsSent.length + 1 := by
  cases hu : s.user with
  | none => simp [handleSubmitQuiz, hu]
  | some u =>
    cases hq : s.activeQuiz with
    | none => simp [handleSubmitQuiz, hu, hq]
    | some qz =>
      cases hs : s.submitted <;> simp [handleSubmitQuiz, hu, hq, hs]

/-! ### Concrete sample data (used by the witness theorems) -/

/-- A sample student. -/
def u0 : User := { id := "S1", name := "Student One", role := .STUDENT }

/-- A sample published quiz with the standard 10-minute duration. -/
def qz0 : Quiz := { id := "daily", title := "Daily Quiz", durationMinutes := 10,
                    publishedAt := some 0 }

/-- A sample question whose correct option is `"b"`. -/
def q0 : Question := { id := "q1", text := "Pick one", correctAnswer := "b",
                       options := [{ id := "a", text := "A" }, { id := "b", text := "B" }] }

/-- A sample bank of 10 questions with identifiers `"q0"` .. `"q9"`. -/
def qs10 : List Question :=
  (List.range 10).map (fun i =>
    { id := "q" ++ toString i, text := "t", correctAnswer := "a",
      options := [{ id := "a", text := "A" }, { id := "b", text := "B" }] })

/-- A base in-lobby session state with nothing loaded yet. -/
def baseState : SessionState :=
  { view := .STUDENT_LOBBY, user := some u0, activeQuiz := none, questions := [],
    currentQIndex := 0, answers := [], globalTimeLeft := 0, questionTimeLeft := 60,
    feedback := none, submitted := false, result := none, onlineCount := 0,
    submissionsSent := [] }

/-- A sample mid-quiz session: quiz loaded, on question index 0, one answer. -/
def cs1 : SessionState :=
  { baseState with activeQuiz := some qz0, questions := [q0],
                   answers := [("q1", "b")], globalTimeLeft := 100 }

/-- The same session already submitted. -/
def cs1sub : SessionState := { cs1 with submitted := true }

/-! ### C1 -/

/-- C1: the finalize/auto-submit operation is idempotent.  Calling
`handleSubmitQuiz` on an already-submitted session leaves the state unchanged;
calling it twice in succession equals calling it once; when the guards pass,
two successive calls produce exactly one new `Submission`; and the global
timer's auto-submit step against an already-submitted session is a no-op. -/
theorem C1_submit_idempotent (s : SessionState) (now now2 : Int) :
    (s.submitted = true → handleSubmitQuiz s now = s) ∧
    handleSubmitQuiz (handleSubmitQuiz s now) now2 = handleSubmitQuiz s now ∧
    (s.submitted = false → s.user.isSome = true → s.activeQuiz.isSome = true →
      (handleSubmitQuiz (handleSubmitQuiz s now) now2).submissionsSent.length
        = s.submissionsSent.length + 1) ∧
    (s.submitted = true → globalStep s now = s) := by
  refine ⟨fun h => handleSubmitQuiz_noop_of_submitted s now h, ?_, ?_, ?_⟩
  · cases hu : s.user with
    | none => simp [handleSubmitQuiz, hu]
    | some u =>
      cases hq : s.activeQuiz with
      | none => simp [handleSubmitQuiz, hu, hq]
      | some qz =>
        cases hs : s.submitted with
        | true => simp [handleSubmitQuiz, hu, hq, hs]
        | false =>
          apply handleSubmitQuiz_noop_of_submitted
          simp [handleSubmitQuiz, hu, hq, hs]
  · intro hs hu hq
    obtain ⟨u, hu⟩ := Option.isSome_iff_exists.mp hu
    obtain ⟨qz, hq⟩ := Option.isSome_iff_exists.mp hq
    have h1 := handleSubmitQuiz_submits s now u qz hu hq hs
    rw [handleSubmitQuiz_noop_of_submitted (handleSubmitQuiz s now) now2 h1.1]
    exact h1.2
  · intro h
    simp [globalStep, globalTimerActive, h]

/-- Witness for C1 at concrete inputs: a real submission happens once, the
second call changes nothing, and submitting the already-submitted session is
a no-op. -/
theorem C1_witness :
    handleSubmitQuiz (handleSubmitQuiz cs1 5) 6 = handleSubmitQuiz cs1 5 ∧
    (handleSubmitQuiz (handleSubmitQuiz cs1 5) 6).submissionsSent.length
      = cs1.submissionsSent.length + 1 ∧
    handleSubmitQuiz cs1sub 7 = cs1sub ∧
    globalStep cs1sub 7 = cs1sub := by
  have h := C1_submit_idempotent cs1 5 6
  have h2 := C1_submit_idempotent cs1sub 7 8
  exact ⟨h.2.1, h.2.2.1 rfl rfl rfl, h2.1 rfl, h2.2.2.2 rfl⟩

/-! ### C2 -/

/-- A published quiz whose duration is 5 minutes, not 10. -/
def qzShort : Quiz := { id := "qz5", title := "Short", durationMinutes := 5,
                        publishedAt := some 0 }

/-- A published quiz with publish timestamp 1000 ms. -/
def qzPub : Quiz := { id := "pub", title := "P", durationMinutes := 10,
                      publishedAt := some 1000 }

/-- C2 counterexample: `loadActiveQuiz` ignores the quiz's duration.  For a
quiz of `durationMinutes = 5` (300 seconds) loaded at the publish instant,
the claim's formula gives 300, but the code's hard-coded `(10 * 60)` budget
(App.tsx line 154) gives 600. -/
theorem C2_counterexample :
    qzShort.durationMinutes * 60 = 300 ∧
    (loadActiveQuiz baseState (some qzShort) [] 0).globalTimeLeft = 600 ∧
    (600 : Nat) ≠ 300 := by
  refine ⟨rfl, rfl, by decide⟩

/-- C2 (amended): on every (re)load of a published quiz, the initial
remaining global time is recomputed as
`600 - floor((now - publishedAt) / 1000)` clamped to a minimum of 0, using
the hard-coded 10-minute budget regardless of the quiz's `durationMinutes`;
in particular loading at `publishedAt + 125000` ms yields 475 seconds. -/
theorem C2_global_time_amended (s : SessionState) (quiz : Quiz)
    (allQs : List Question) (now pub : Int) (h : quiz.publishedAt = some pub) :
    (loadActiveQuiz s (some quiz) allQs now).globalTimeLeft
      = (600 - (now - pub) / 1000).toNat ∧
    (loadActiveQuiz s (some quiz) allQs (pub + 125000)).globalTimeLeft = 475 := by
  constructor
  · simp only [loadActiveQuiz, h]
    split
    · next hpos => omega
    · next hneg => omega
  · simp only [loadActiveQuiz, h]
    have he : pub + 125000 - pub = (125000 : Int) := by ring
    rw [he]
    decide

/-- Witness for C2 (amended): the 125-second-late load of a concrete quiz
published at 1000 ms starts with 475 remaining seconds. -/
theorem C2_amended_witness :
    (loadActiveQuiz baseState (some qzPub) qs10 (1000 + 125000)).globalTimeLeft = 475 :=
  (C2_global_time_amended baseState qzPub qs10 0 1000 rfl).2

/-! ### C3 -/

/-- Helper for the overwrite property of `recordSet`: replacing the value of
a key already present keeps it findable with the new value. -/
theorem find?_map_replace (m : List (String × String)) (k v : String)
    (h : m.any (fun p => decide (p.1 = k)) = true) :
    (m.map (fun p => if p.1 = k then (k, v) else p)).find? (fun p => decide (p.1 = k))
      = some (k, v) := by
  induction m with
  | nil => simp at h
  | cons p t ih =>
    by_cases hp : p.1 = k
    · simp [hp]
    · simp only [List.any_cons, Bool.or_eq_true, decide_eq_true_eq] at h
      have h' : t.any (fun p => decide (p.1 = k)) = true := by
        rcases h with h | h
        · exact absurd h hp
        · exact List.any_eq_true.mpr (by simpa using h)
      simp [hp, ih h']

/-- After `recordSet m k v`, looking up `k` yields `v` (any prior entry for
`k` is overwritten). -/
theorem lookupRecord_recordSet (m : List (String × String)) (k v : String) :
    lookupRecord (recordSet m k v) k = some v := by
  unfold recordSet lookupRecord
  by_cases h : m.any (fun p => decide (p.1 = k)) = true
  · rw [if_pos h, find?_map_replace m k v h]
    rfl
  · rw [if_neg h]
    have hnone : m.find? (fun p => decide (p.1 = k)) = none := by
      rw [List.find?_eq_none]
      intro x hx hpx
      exact h (List.any_eq_true.mpr ⟨x, hx, hpx⟩)
    rw [List.find?_append, hnone]
    simp

/-- A mid-quiz state that is already submitted but shows no feedback. -/
def cs3 : SessionState :=
  { baseState with activeQuiz := some qz0, questions := [q0], submitted := true }

/-- C3 counterexample: with the session already submitted and no feedback
set, `handleOptionClick` is not a no-op — it still records the answer and
sets feedback, because the handler only guards on `feedback`
(App.tsx line 230), never on `submitted`. -/
theorem C3_counterexample :
    cs3.submitted = true ∧ cs3.feedback = none ∧
    handleOptionClick cs3 "q1" "a"
      = some { cs3 with answers := [("q1", "a")],
                        feedback := some { selectedId := "a", isCorrect := false } } ∧
    handleOptionClick cs3 "q1" "a" ≠ some cs3 := by
  refine ⟨rfl, rfl, by decide, by decide⟩

/-- C3 (amended): a selection is rejected (no-op) exactly when feedback is
already set — the `submitted` flag is not consulted (a selection while
submitted is unreachable through the UI only because the option buttons are
not rendered once submitted).  Otherwise the click records the pair for the
given question identifier (overwriting any prior entry for it), computes
correctness as string equality of the chosen option identifier with the
current question's correct option identifier, and stores transient
feedback. -/
theorem C3_option_click_amended (s : SessionState) (qid oid : String) (q : Question)
    (hq : s.questions[s.currentQIndex]? = some q) :
    (s.feedback.isSome = true → handleOptionClick s qid oid = some s) ∧
    (s.feedback = none →
      handleOptionClick s qid oid
        = some { s with answers := recordSet s.answers qid oid,
                        feedback := some { selectedId := oid,
                                           isCorrect := decide (oid = q.correctAnswer) } } ∧
      lookupRecord (recordSet s.answers qid oid) qid = some oid) := by
  constructor
  · intro h
    simp [handleOptionClick, h]
  · intro h
    refine ⟨?_, lookupRecord_recordSet s.answers qid oid⟩
    simp [handleOptionClick, h, hq]

/-- A mid-quiz state with no feedback and a valid current question. -/
def cs3b : SessionState :=
  { baseState with activeQuiz := some qz0, questions := [q0] }

/-- Witness for C3 (amended): a concrete click is recorded with its feedback,
and the recorded entry is found under the clicked question identifier. -/
theorem C3_amended_witness :
    handleOptionClick cs3b "q1" "a"
      = some { cs3b with answers := recordSet cs3b.answers "q1" "a",
                         feedback := some { selectedId := "a",
                                            isCorrect := decide (("a" : String) = q0.correctAnswer) } } ∧
    lookupRecord (recordSet cs3b.answers "q1" "a") "q1" = some "a" :=
  (C3_option_click_amended cs3b "q1" "a" q0 rfl).2 rfl

/-! ### C4 -/

/-- C4: when the question timer expires (a tick at a remaining value of at
most 1), the advance rule runs with no answer recorded and no feedback
shown: below the last index, the index is incremented and the timer reset to
60; at the last index the session submits.  In both cases the answer map is
untouched. -/
theorem C4_question_timeout (s : SessionState) (now : Int)
    (hexp : s.questionTimeLeft ≤ 1) :
    (s.currentQIndex < s.questions.length - 1 →
      (questionTick s now).currentQIndex = s.currentQIndex + 1 ∧
      (questionTick s now).questionTimeLeft = 60 ∧
      (questionTick s now).answers = s.answers ∧
      (questionTick s now).feedback = none ∧
      (questionTick s now).submitted = s.submitted) ∧
    (s.currentQIndex = s.questions.length - 1 →
      ∀ u qz, s.user = some u → s.activeQuiz = some qz → s.submitted = false →
      (questionTick s now).submitted = true ∧
      (questionTick s now).answers = s.answers ∧
      (questionTick s now).feedback = none) := by
  have ht : questionTick s now = { handleNextQuestion s now with questionTimeLeft := 60 } := by
    simp [questionTick, hexp]
  constructor
  · intro hlt
    rw [ht]
    simp [handleNextQuestion, hlt]
  · intro heq u qz hu hq hs
    rw [ht]
    have hnot : ¬ s.currentQIndex < s.questions.length - 1 := by omega
    simp [handleNextQuestion, hnot, handleSubmitQuiz, hu, hq, hs]

/-- A 10-question session on index 3 whose question timer is about to
expire. -/
def cw4 : SessionState :=
  { baseState with activeQuiz := some qz0, questions := qs10, currentQIndex := 3,
                   questionTimeLeft := 1, globalTimeLeft := 300 }

/-- The same session on the last question index. -/
def cw4last : SessionState := { cw4 with currentQIndex := 9 }

/-- Witness for C4: expiry at index 3 of a 10-question list advances to
index 4 and leaves no entry for question 3's identifier; expiry at the last
index submits. -/
theorem C4_witness :
    (questionTick cw4 0).currentQIndex = 4 ∧
    (questionTick cw4 0).answers = [] ∧
    findAnswer ((questionTick cw4 0).answers.map
      (fun kv => AnsweredPair.mk kv.1 kv.2)) "q3" = none ∧
    (questionTick cw4last 0).submitted = true := by
  have h := (C4_question_timeout cw4 0 (by decide)).1 (by decide)
  have h2 := (C4_question_timeout cw4last 0 (by decide)).2 (by decide) u0 qz0 rfl rfl rfl
  refine ⟨h.1, h.2.2.1, ?_, h2.1⟩
  rw [h.2.2.1]
  rfl

/-! ### C5 -/

/-- An in-progress session for quiz `qz0`: question index 3, three answers
recorded, not submitted. -/
def cs5 : SessionState :=
  { baseState with activeQuiz := some qz0, questions := qs10, currentQIndex := 3,
                   answers := [("q0", "a"), ("q1", "b"), ("q2", "a")],
                   globalTimeLeft := 400, questionTimeLeft := 30, onlineCount := 1 }

/-- C5: re-observing a `QUIZ_PUBLISHED` notification for the quiz identifier
the session is already taking is NOT idempotent in the code: the event
handler re-runs `loadActiveQuiz`, which unconditionally resets the session —
question index back to 0 and all recorded answers cleared (App.tsx lines
144-150, despite the comment "Reset local state for new quiz"). -/
theorem C5_republish_resets :
    cs5.activeQuiz = some qz0 ∧ cs5.submitted = false ∧
    cs5.currentQIndex = 3 ∧ cs5.answers ≠ [] ∧
    (handleEvent cs5 .QUIZ_PUBLISHED (some qz0) qs10 200000).currentQIndex = 0 ∧
    (handleEvent cs5 .QUIZ_PUBLISHED (some qz0) qs10 200000).answers = [] := by
  refine ⟨rfl, rfl, rfl, by decide, rfl, rfl⟩

/-! ### C6 -/

/-- C6: when the global timer's remaining value would drop to or below 0,
the expiry tick clamps it to 0 and consists of exactly one auto-submit call
(`submitRef.current()`); after expiry the scheduling condition is false, so
every later step is a no-op and at most one submission was sent. -/
theorem C6_global_expiry (s : SessionState) (now now2 : Int)
    (hact : globalTimerActive s = true) (hexp : s.globalTimeLeft ≤ 1) :
    globalStep s now = { handleSubmitQuiz s now with globalTimeLeft := 0 } ∧
    (globalStep s now).globalTimeLeft = 0 ∧
    globalTimerActive (globalStep s now) = false ∧
    globalStep (globalStep s now) now2 = globalStep s now ∧
    (globalStep s now).submissionsSent.length ≤ s.submissionsSent.length + 1 := by
  have h1 : globalStep s now = { handleSubmitQuiz s now with globalTimeLeft := 0 } := by
    simp [globalStep, hact, globalTick, hexp]
  have h3 : globalTimerActive (globalStep s now) = false := by
    rw [h1]
    simp [globalTimerActive]
  refine ⟨h1, by rw [h1], h3, ?_, ?_⟩
  · have hstep : globalStep (globalStep s now) now2
        = if globalTimerActive (globalStep s now) then globalTick (globalStep s now) now2
          else globalStep s now := rfl
    rw [hstep, h3]
    simp
  · rw [h1]
    exact handleSubmitQuiz_submissions_le s now

/-- A session whose global timer is one second from expiry. -/
def cw6 : SessionState :=
  { baseState with activeQuiz := some qz0, questions := [q0], globalTimeLeft := 1 }

/-- Witness for C6: the concrete expiry tick clamps to 0, deactivates the
timer and makes the following step a no-op. -/
theorem C6_witness :
    (globalStep cw6 0).globalTimeLeft = 0 ∧
    globalTimerActive (globalStep cw6 0) = false ∧
    globalStep (globalStep cw6 0) 1 = globalStep cw6 0 := by
  have h := C6_global_expiry cw6 0 1 (by decide) (by decide)
  exact ⟨h.2.1, h.2.2.1, h.2.2.2.1⟩

/-! ### C7 -/

/-- C7: the question timer steps only while a question is actively displayed
— it is a no-op while feedback is visible, while no questions are loaded, or
after submission; its scheduling condition forces no feedback, a nonempty
list and an unsubmitted session; and it is reset to the full 60-second
budget by every operation that changes the question index or clears feedback
(`handleNextQuestion` and a quiz (re)load), while a click changes neither
the index nor the remaining question time. -/
theorem C7_question_timer (s : SessionState) (now : Int) (qid oid : String) :
    (s.feedback.isSome = true → questionStep s now = s) ∧
    (s.questions = [] → questionStep s now = s) ∧
    (s.submitted = true → questionStep s now = s) ∧
    (questionTimerActive s = true →
      s.feedback = none ∧ s.questions ≠ [] ∧ s.submitted = false) ∧
    (handleNextQuestion s now).questionTimeLeft = 60 ∧
    (∀ quiz allQs pub, quiz.publishedAt = some pub →
      (loadActiveQuiz s (some quiz) allQs now).questionTimeLeft = 60) ∧
    (∀ s2, handleOptionClick s qid oid = some s2 →
      s2.currentQIndex = s.currentQIndex ∧ s2.questionTimeLeft = s.questionTimeLeft) := by
  refine ⟨?_, ?_, ?_, ?_, ?_, ?_, ?_⟩
  · intro h
    cases hf : s.feedback with
    | none => rw [hf] at h; simp at h
    | some f => simp [questionStep, questionTimerActive, hf]
  · intro h
    simp [questionStep, questionTimerActive, h]
  · intro h
    simp [questionStep, questionTimerActive, h]
  · intro h
    simp only [questionTimerActive, Bool.and_eq_true, decide_eq_true_eq,
               Option.isNone_iff_eq_none, Bool.not_eq_true'] at h
    exact ⟨h.1.2, List.length_pos.mp h.2, h.1.1.1.2⟩
  · unfold handleNextQuestion
    dsimp only
    split
    · rfl
    · exact (handleSubmitQuiz_fields _ now).2.2.2.2.2.2.2.1
  · intro quiz allQs pub hpub
    simp [loadActiveQuiz, hpub]
  · intro s2 h
    unfold handleOptionClick at h
    by_cases hf : s.feedback.isSome = true
    · rw [if_pos hf] at h
      cases h
      exact ⟨rfl, rfl⟩
    · rw [if_neg hf] at h
      cases hg : s.questions[s.currentQIndex]? with
      | none => rw [hg] at h; cases h
      | some q =>
        rw [hg] at h
        cases h
        exact ⟨rfl, rfl⟩

/-- A session currently showing feedback. -/
def cf7 : SessionState :=
  { baseState with activeQuiz := some qz0, questions := [q0],
                   feedback := some { selectedId := "a", isCorrect := false } }

/-- Witness for C7: with feedback visible the timer step is a no-op, and the
advance and load operations reset the question timer to 60. -/
theorem C7_witness :
    questionStep cf7 0 = cf7 ∧
    (handleNextQuestion cf7 0).questionTimeLeft = 60 ∧
    (loadActiveQuiz cf7 (some qz0) qs10 0).questionTimeLeft = 60 := by
  have h := C7_question_timer cf7 0 "x" "y"
  exact ⟨h.1 rfl, h.2.2.2.2.1, h.2.2.2.2.2.1 qz0 qs10 0 rfl⟩

/-! ### C9 -/

/-- C9: in the in-progress quiz view (student lobby, active quiz, not
submitted), an empty question list or an out-of-range question index renders
a distinct loading/error screen — never the interactive question screen, so
the user cannot proceed to answer, and no undefined current question is
displayed. -/
theorem C9_render_guard (s : SessionState)
    (hv : s.view = View.STUDENT_LOBBY) (hq : s.activeQuiz.isSome = true)
    (hs : s.submitted = false) (hbad : s.questions.length ≤ s.currentQIndex) :
    (render s = RenderedView.loadingQuestions ∨
     render s = RenderedView.questionNotFound) ∧
    (∀ q i t e, render s ≠ RenderedView.quizQuestion q i t e) := by
  obtain ⟨qz, hqz⟩ := Option.isSome_iff_exists.mp hq
  have hr : render s = RenderedView.loadingQuestions ∨
      render s = RenderedView.questionNotFound := by
    by_cases hlen : s.questions.length = 0
    · left
      simp [render, hv, hqz, hs, hlen]
    · right
      have hnone : s.questions[s.currentQIndex]? = none :=
        List.getElem?_eq_none hbad
      simp [render, hv, hqz, hs, hlen, hnone]
  refine ⟨hr, ?_⟩
  intro q i t e hcontra
  rcases hr with hr | hr <;> rw [hr] at hcontra <;> exact RenderedView.noConfusion hcontra

/-- A lobby state with an active quiz but an empty question list. -/
def cw9 : SessionState := { baseState with activeQuiz := some qz0 }

/-- A lobby state whose question index is out of range. -/
def cw9b : SessionState :=
  { baseState with activeQuiz := some qz0, questions := [q0], currentQIndex := 7 }

/-- Witness for C9: the empty-list state renders the loading screen, the
out-of-range state renders an error screen, and neither renders the
interactive question view. -/
theorem C9_witness :
    (render cw9 = RenderedView.loadingQuestions ∨
     render cw9 = RenderedView.questionNotFound) ∧
    (render cw9b = RenderedView.loadingQuestions ∨
     render cw9b = RenderedView.questionNotFound) := by
  have h := C9_render_guard cw9 rfl rfl rfl (by decide)
  have h2 := C9_render_guard cw9b rfl rfl rfl (by decide)
  exact ⟨h.1, h2.1⟩

/-! ### C10 -/

/-- C10: when no feedback is set and the current question exists,
`handleOptionClick` records `answers[questionId] = optionId` for arbitrary
strings — no check that `questionId` is the current question's identifier or
that `optionId` is among its options — and the stored feedback's correctness
is exactly the string equality of `optionId` with the current question's
`correctAnswer`, so an out-of-vocabulary option equal to that string counts
as correct. -/
theorem C10_click_no_validation (s : SessionState) (qid oid : String) (q : Question)
    (hf : s.feedback = none) (hq : s.questions[s.currentQIndex]? = some q) :
    handleOptionClick s qid oid
      = some { s with answers := recordSet s.answers qid oid,
                      feedback := some { selectedId := oid,
                                         isCorrect := decide (oid = q.correctAnswer) } } ∧
    lookupRecord (recordSet s.answers qid oid) qid = some oid ∧
    (decide (oid = q.correctAnswer) = true ↔ oid = q.correctAnswer) := by
  refine ⟨?_, lookupRecord_recordSet s.answers qid oid, by simp⟩
  simp [handleOptionClick, hf, hq]

/-- A question whose `correctAnswer` string `"z"` is not among its option
identifiers. -/
def qWeird : Question := { id := "qw", text := "odd", correctAnswer := "z",
                           options := [{ id := "a", text := "A" }, { id := "b", text := "B" }] }

/-- A session whose current question is `qWeird`. -/
def csW : SessionState :=
  { baseState with activeQuiz := some qz0, questions := [qWeird] }

/-- Witness for C10: clicking with a question identifier different from the
current question's and an option identifier outside its option vocabulary is
recorded verbatim, and it is marked correct because the string equals
`correctAnswer`. -/
theorem C10_witness :
    handleOptionClick csW "nope" "z"
      = some { csW with answers := recordSet csW.answers "nope" "z",
                        feedback := some { selectedId := "z",
                                           isCorrect := decide (("z" : String) = qWeird.correctAnswer) } } ∧
    lookupRecord (recordSet csW.answers "nope" "z") "nope" = some "z" ∧
    (decide (("z" : String) = qWeird.correctAnswer) = true ↔ ("z" : String) = qWeird.correctAnswer) :=
  C10_click_no_validation csW "nope" "z" qWeird rfl rfl

/-! ### C8 -/

/-- Looking up an answer by question identifier is invariant under
permutation of the answer collection, provided the collection has (as the
data model guarantees) at most one entry per question identifier. -/
theorem findAnswer_perm (A B : List AnsweredPair) (h : A.Perm B)
    (hnd : (A.map AnsweredPair.questionId).Nodup) (qid : String) :
    findAnswer A qid = findAnswer B qid := by
  have inj : ∀ a ∈ A, ∀ b ∈ A, a.questionId = b.questionId → a = b := by
    intro a ha b hb hab
    exact List.inj_on_of_nodup_map hnd ha hb hab
  unfold findAnswer
  cases hA : A.find? (fun a => decide (a.questionId = qid)) with
  | none =>
    have hnoneA : ∀ x ∈ A, ¬ x.questionId = qid := by
      intro x hx
      have := List.find?_eq_none.mp hA x hx
      simpa using this
    symm
    rw [List.find?_eq_none]
    intro x hx
    simpa using hnoneA x (h.symm.subset hx)
  | some a =>
    have hpa : a.questionId = qid := by simpa using List.find?_some hA
    have haA : a ∈ A := List.mem_of_find?_eq_some hA
    have haB : a ∈ B := h.subset haA
    have hsome : (B.find? (fun x => decide (x.questionId = qid))).isSome := by
      rw [List.find?_isSome]
      exact ⟨a, haB, by simpa using hpa⟩
    obtain ⟨b, hb⟩ := Option.isSome_iff_exists.mp hsome
    have hpb : b.questionId = qid := by simpa using List.find?_some hb
    have hbB : b ∈ B := List.mem_of_find?_eq_some hb
    have hbA : b ∈ A := h.symm.subset hbB
    rw [hb]
    exact congrArg some (inj a haA b hbA (hpa.trans hpb.symm))

/-- C8: the scoring function is bounded by the question count, gives 0 on an
empty answer collection, counts unanswered questions as incorrect (all
questions unanswered gives 0), ignores answers for question identifiers not
in the question list, and is independent of the order of the answers (for
collections with, as the data model guarantees, one entry per question
identifier). -/
theorem C8_scoring (Q : List Question) (A B extra : List AnsweredPair) :
    calculateScore Q [] = 0 ∧
    0 ≤ calculateScore Q A ∧
    calculateScore Q A ≤ Q.length ∧
    ((∀ q ∈ Q, findAnswer A q.id = none) → calculateScore Q A = 0) ∧
    ((∀ p ∈ extra, ∀ q ∈ Q, q.id ≠ p.questionId) →
      calculateScore Q (A ++ extra) = calculateScore Q A) ∧
    (A.Perm B → (A.map AnsweredPair.questionId).Nodup →
      calculateScore Q A = calculateScore Q B) := by
  refine ⟨?_, Nat.zero_le _, ?_, ?_, ?_, ?_⟩
  · unfold calculateScore
    rw [List.countP_eq_zero]
    intro q hq
    simp [findAnswer]
  · unfold calculateScore
    exact List.countP_le_length _
  · intro hall
    unfold calculateScore
    rw [List.countP_eq_zero]
    intro q hq
    rw [hall q hq]
    simp
  · intro hext
    unfold calculateScore
    refine List.countP_congr ?_
    intro q hq
    have hfa : findAnswer (A ++ extra) q.id = findAnswer A q.id := by
      unfold findAnswer
      rw [List.find?_append]
      have hnone : extra.find? (fun a => decide (a.questionId = q.id)) = none := by
        rw [List.find?_eq_none]
        intro x hx hxq
        exact hext x hx q hq (of_decide_eq_true hxq).symm
      rw [hnone]
      cases A.find? (fun a => decide (a.questionId = q.id)) <;> rfl
    rw [hfa]
  · intro hperm hnd
    unfold calculateScore
    refine List.countP_congr ?_
    intro q hq
    rw [findAnswer_perm A B hperm hnd q.id]

/-- Answers for the one-question quiz `[q0]`: the correct answer for `"q1"`
plus an entry for an identifier outside the quiz. -/
def ansA : List AnsweredPair :=
  [{ questionId := "q1", value := "b" }, { questionId := "zz", value := "c" }]

/-- The same collection in the opposite order. -/
def ansB : List AnsweredPair :=
  [{ questionId := "zz", value := "c" }, { questionId := "q1", value := "b" }]

/-- An answer collection touching no question of `[q0]`. -/
def extraA : List AnsweredPair := [{ questionId := "xx", value := "y" }]

/-- Witness for C8 at concrete inputs: empty collection scores 0, the score
is bounded, out-of-quiz answers are ignored, order does not matter, and a
collection answering no question of the quiz scores 0. -/
theorem C8_witness :
    calculateScore [q0] [] = 0 ∧
    calculateScore [q0] ansA ≤ 1 ∧
    calculateScore [q0] (ansA ++ extraA) = calculateScore [q0] ansA ∧
    calculateScore [q0] ansA = calculateScore [q0] ansB ∧
    calculateScore [q0] extraA = 0 := by
  have h := C8_scoring [q0] ansA ansB extraA
  have h2 := C8_scoring [q0] extraA extraA extraA
  refine ⟨h.1, h.2.2.1, h.2.2.2.2.1 (by decide), ?_, h2.2.2.2.1 (by decide)⟩
  refine h.2.2.2.2.2 ?_ (by decide)
  unfold ansA ansB
  exact List.Perm.swap _ _ []

end QuizApp
